import Mathlib

/-!
# Verification of the rust guessing game (src/main.rs)

Shallow embedding of the program in Lean 4. The three Rust items are
modelled as pure functions:

* `input_parser` (src/main.rs:167-178) becomes `inputParser`, returning the
  `Result<u32, bool>` outcome together with the list of lines it prints.
* `guess` (src/main.rs:101-147) becomes `roundStep` (one iteration of its
  loop after reading a line), `guessLoop` (the whole loop over a list of
  input lines), `secretDraw` (the `gen_range(1, max_value + 1)` draw, with
  the `+ 1` performed in u32 arithmetic) and `guess` (header + draw + loop).
* `main` (src/main.rs:29-81) becomes `runMain`, the session loop written as
  an explicit state machine (`SessionState`) driven by the list of input
  lines; each loop iteration of the Rust code consumes exactly one line, so
  the machine recurses structurally on that list.

Conventions: machine integers are `Nat` (every value the program handles is
a parsed u32, hence `< 2 ^ 32`; the single place where u32 overflow can
occur, `max_value + 1`, is modelled with an explicit `% 2 ^ 32`). Printing
is modelled by returning the list of printed lines. A Rust panic (a failed
`read_line`, or the aborting random draw on an empty range) is `none`.
Randomness is an explicit source: `r : Nat` is the raw value the generator
hands to `gen_range`. Rust's `str::trim` is modelled by `rustTrim`, which
trims ASCII whitespace from both ends (Rust also trims rarer Unicode
whitespace; the claims only quantify over the trimmed text, so theorems
take hypotheses on `rustTrim input`).
-/

namespace GuessingGame

/-- ASCII whitespace, the common core of Rust's `char::is_whitespace`. -/
def isWhitespaceChar (c : Char) : Bool :=
  c == ' ' || c == '\t' || c == '\n' || c == '\r'

/-- Model of Rust `str::trim`: remove whitespace from both ends. -/
def rustTrim (s : String) : String :=
  ⟨((s.data.dropWhile isWhitespaceChar).reverse.dropWhile isWhitespaceChar).reverse⟩

/-- Numeric value of a list of decimal digits, most significant first. -/
def digitsToNat (cs : List Char) : Nat :=
  cs.foldl (fun a c => 10 * a + (c.toNat - 48)) 0

/-- `2 ^ 32`, the u32 modulus. -/
def U32_MOD : Nat := 4294967296

/-- Digits of a numeral after Rust's optional leading `+` sign
(`u32::from_str` accepts `+` but not `-`). -/
def stripPlus (cs : List Char) : List Char :=
  match cs with
  | '+' :: rest => rest
  | _ => cs

/-- Model of Rust `str::parse::<u32>()`: an optional leading `+`, then one
or more ASCII digits, and the value must fit in u32; anything else is a
parse error (`none`), including numerals greater than `u32::MAX`. -/
def parseU32 (s : String) : Option Nat :=
  if stripPlus s.data ≠ [] ∧ (stripPlus s.data).all Char.isDigit = true then
    if digitsToNat (stripPlus s.data) < U32_MOD then
      some (digitsToNat (stripPlus s.data))
    else none
  else none

/-- Model of `input_parser` (src/main.rs:167-178). Returns the
`Result<u32, bool>` outcome (`Except.ok n` = `Ok(num)`, `Except.error true`
= the quit signal `Err(true)`, `Except.error false` = the invalid-input
signal `Err(false)`) paired with the list of lines printed. -/
def inputParser (input : String) : Except Bool Nat × List String :=
  match parseU32 (rustTrim input) with
  | some num => (Except.ok num, [])
  | none =>
    if rustTrim input = "quit" then (Except.error true, [])
    else (Except.error false, ["Invalid number: " ++ rustTrim input])

/-- The branch taken by one iteration of the loop in `guess`. -/
inductive StepResult where
  | again
  | win
  | quitRound
deriving DecidableEq, Repr

/-- One iteration of the loop in `guess` after reading `input`
(src/main.rs:117-146): which branch is taken and the lines printed. -/
def roundStep (maxValue secretNumber : Nat) (input : String) :
    StepResult × List String :=
  match inputParser input with
  | (Except.error typedQuit, out) =>
    if typedQuit then (StepResult.quitRound, out ++ ["Goodbye!"])
    else (StepResult.again, out)
  | (Except.ok g, out) =>
    if g > maxValue then
      (StepResult.again, out ++ ["Invalid number: " ++ toString g])
    else if g < 1 then
      (StepResult.again, out ++ ["Invalid number: " ++ toString g])
    else
      match compare g secretNumber with
      | Ordering.lt => (StepResult.again, out ++ ["Too small."])
      | Ordering.gt => (StepResult.again, out ++ ["Too big."])
      | Ordering.eq => (StepResult.win, out ++ ["You win!"])

/-- Model of rand's `gen_range(low, high)`: a value in `[low, high)`
determined by the raw random value `r`; `none` models the panic raised on
an empty range (`low >= high`). -/
def genRange (low high r : Nat) : Option Nat :=
  if low < high then some (low + r % (high - low)) else none

/-- The secret-number draw of `guess` (src/main.rs:105):
`gen_range(1, max_value + 1)` where `max_value + 1` is computed in u32
arithmetic, hence the `% 2 ^ 32`. -/
def secretDraw (maxValue r : Nat) : Option Nat :=
  genRange 1 ((maxValue + 1) % U32_MOD) r

/-- The two prompt lines printed at the top of each `guess` loop
iteration (src/main.rs:108-109). -/
def guessPrompt : List String := ["", "Input your guess!"]

/-- The loop of `guess` run over a list of input lines: returns the
boolean result (`true` = won, `false` = quit), every line printed, and the
unread input lines; `none` models the `read_line` panic when the input is
exhausted. -/
def guessLoop (maxValue secretNumber : Nat) :
    List String → Option (Bool × List String × List String)
  | [] => none
  | line :: rest =>
    match roundStep maxValue secretNumber line with
    | (StepResult.win, out) => some (true, guessPrompt ++ out, rest)
    | (StepResult.quitRound, out) => some (false, guessPrompt ++ out, rest)
    | (StepResult.again, out) =>
      (guessLoop maxValue secretNumber rest).map
        (fun res => (res.1, guessPrompt ++ out ++ res.2.1, res.2.2))

/-- The header `guess` prints before drawing the secret
(src/main.rs:102-103). -/
def guessHeader (maxValue : Nat) : List String :=
  ["", "Guess a number from 1 to " ++ toString maxValue ++ "."]

/-- Model of `guess` (src/main.rs:101-147): print the header, draw the
secret number from the random value `r`, then run the loop. -/
def guess (maxValue r : Nat) (inputs : List String) :
    Option (Bool × List String × List String) :=
  match secretDraw maxValue r with
  | none => none
  | some s =>
    (guessLoop maxValue s inputs).map
      (fun res => (res.1, guessHeader maxValue ++ res.2.1, res.2.2))

/-- Control point of the session loop in `main`, following the spec's
suggested continue-round / end-round / end-session restructuring of the
nested loops: about to read a max value, about to read a guess inside a
round, or about to read the play-again answer. `k` counts the rounds
started and indexes the random source. -/
inductive SessionState where
  | atMax (k : Nat)
  | inRound (k : Nat) (maxValue secretNumber : Nat)
  | atReplay (k : Nat)
deriving DecidableEq, Repr

/-- The prompt printed before reading a max value (src/main.rs:37-38). -/
def maxPrompt : List String := ["", "What is the max value to guess?"]

/-- The prompt printed before reading the play-again answer
(src/main.rs:67-68). -/
def replayPrompt : List String := ["", "Enter \"y\" to play again."]

/-- The session loop of `main` (src/main.rs:34-80) run over a list of
input lines, with `rand k` the raw random value consumed by the k-th
round's draw. Returns every line printed until the process ends, or
`none` on a panic (failed read or aborting draw). Each Rust loop
iteration reads exactly one line, so the recursion is on the input list. -/
def runMain (rand : Nat → Nat) : SessionState → List String → Option (List String)
  | _, [] => none
  | SessionState.atMax k, line :: rest =>
    match inputParser line with
    | (Except.error typedQuit, out) =>
      if typedQuit then some (maxPrompt ++ out ++ ["Goodbye!"])
      else
        (runMain rand (SessionState.atMax k) rest).map
          (fun o => maxPrompt ++ out ++ [""] ++ o)
    | (Except.ok num, out) =>
      if num < 1 then
        (runMain rand (SessionState.atMax k) rest).map
          (fun o => maxPrompt ++ out ++ ["Value must be greater than zero."] ++ o)
      else
        match secretDraw num (rand k) with
        | none => none
        | some s =>
          (runMain rand (SessionState.inRound (k + 1) num s) rest).map
            (fun o => maxPrompt ++ out ++ guessHeader num ++ o)
  | SessionState.inRound k maxValue s, line :: rest =>
    match roundStep maxValue s line with
    | (StepResult.quitRound, out) => some (guessPrompt ++ out)
    | (StepResult.win, out) =>
      (runMain rand (SessionState.atReplay k) rest).map
        (fun o => guessPrompt ++ out ++ o)
    | (StepResult.again, out) =>
      (runMain rand (SessionState.inRound k maxValue s) rest).map
        (fun o => guessPrompt ++ out ++ o)
  | SessionState.atReplay k, line :: rest =>
    if rustTrim line = "y" then
      (runMain rand (SessionState.atMax k) rest).map
        (fun o => replayPrompt ++ o)
    else some (replayPrompt ++ ["At least you're leaving a winner."])

/-- The banner `main` prints once at startup (src/main.rs:30-32). -/
def banner : List String :=
  ["", "Welcome to the guessing game.", "Type \"quit\" at any time to quit."]

/-- Model of the whole process: banner, then the session loop from the
max-value prompt with round counter 0. -/
def rustMain (rand : Nat → Nat) (inputs : List String) : Option (List String) :=
  (runMain rand (SessionState.atMax 0) inputs).map (fun o => banner ++ o)

/-! ## Helper lemmas -/

lemma invalidMsg_ne_goodbye (t : String) : "Invalid number: " ++ t ≠ "Goodbye!" := by
  intro h
  have h2 : ("Invalid number: " ++ t).data.length = ("Goodbye!" : String).data.length := by
    rw [h]
  have h3 : ("Invalid number: " ++ t).data = "Invalid number: ".data ++ t.data := rfl
  rw [h3, List.length_append] at h2
  simp at h2
  omega

/-- Exhaustive description of `inputParser`: the quit branch, the numeric
branch, and the invalid branch, each with its exact output. -/
lemma inputParser_cases (input : String) :
    (rustTrim input = "quit" ∧ inputParser input = (Except.error true, [])) ∨
    (∃ n, parseU32 (rustTrim input) = some n ∧ inputParser input = (Except.ok n, [])) ∨
    (rustTrim input ≠ "quit" ∧ parseU32 (rustTrim input) = none ∧
      inputParser input = (Except.error false, ["Invalid number: " ++ rustTrim input])) := by
  unfold inputParser
  cases hp : parseU32 (rustTrim input) with
  | some n => exact Or.inr (Or.inl ⟨n, rfl, rfl⟩)
  | none =>
    by_cases hq : rustTrim input = "quit"
    · rw [if_pos hq]
      exact Or.inl ⟨hq, rfl⟩
    · rw [if_neg hq]
      exact Or.inr (Or.inr ⟨hq, rfl, rfl⟩)

lemma inputParser_of_quit {input : String} (h : rustTrim input = "quit") :
    inputParser input = (Except.error true, []) := by
  have hp : parseU32 (rustTrim input) = none := by rw [h]; rfl
  unfold inputParser
  rw [hp, if_pos h]

lemma inputParser_quit_iff (input : String) :
    (inputParser input).1 = Except.error true ↔ rustTrim input = "quit" := by
  constructor
  · intro h
    rcases inputParser_cases input with ⟨hq, _⟩ | ⟨n, _, hp⟩ | ⟨_, _, hp⟩
    · exact hq
    · rw [hp] at h; simp at h
    · rw [hp] at h; simp at h
  · intro h
    rw [inputParser_of_quit h]

lemma roundStep_of_quit {m s : Nat} {input : String} (h : rustTrim input = "quit") :
    roundStep m s input = (StepResult.quitRound, ["Goodbye!"]) := by
  simp [roundStep, inputParser_of_quit h]

lemma roundStep_of_invalid {m s : Nat} {input : String}
    (h : inputParser input = (Except.error false, ["Invalid number: " ++ rustTrim input])) :
    roundStep m s input = (StepResult.again, ["Invalid number: " ++ rustTrim input]) := by
  simp [roundStep, h]

lemma roundStep_of_ok_out_of_range {m s g : Nat} {input : String}
    (hp : inputParser input = (Except.ok g, []))
    (hm : 1 ≤ m) (hg : g < 1 ∨ m < g) :
    roundStep m s input = (StepResult.again, ["Invalid number: " ++ toString g]) := by
  rcases hg with hg | hg
  · have h1 : ¬ g > m := by omega
    simp [roundStep, hp, h1, hg]
  · have h1 : g > m := hg
    simp [roundStep, hp, h1]

lemma roundStep_of_ok_lt {m s g : Nat} {input : String}
    (hp : inputParser input = (Except.ok g, []))
    (h1 : 1 ≤ g) (h2 : g ≤ m) (h : g < s) :
    roundStep m s input = (StepResult.again, ["Too small."]) := by
  have hgm : ¬ g > m := by omega
  have hl : ¬ g < 1 := by omega
  simp [roundStep, hp, hgm, hl, Nat.compare_eq_lt.2 h]

lemma roundStep_of_ok_gt {m s g : Nat} {input : String}
    (hp : inputParser input = (Except.ok g, []))
    (h1 : 1 ≤ g) (h2 : g ≤ m) (h : s < g) :
    roundStep m s input = (StepResult.again, ["Too big."]) := by
  have hgm : ¬ g > m := by omega
  have hl : ¬ g < 1 := by omega
  simp [roundStep, hp, hgm, hl, Nat.compare_eq_gt.2 h]

lemma roundStep_of_ok_eq {m s g : Nat} {input : String}
    (hp : inputParser input = (Except.ok g, []))
    (h1 : 1 ≤ g) (h2 : g ≤ m) (h : g = s) :
    roundStep m s input = (StepResult.win, ["You win!"]) := by
  have hgm : ¬ g > m := by omega
  have hl : ¬ g < 1 := by omega
  simp [roundStep, hp, hgm, hl, Nat.compare_eq_eq.2 h]

lemma roundStep_ok_cases {m s n : Nat} {input : String}
    (hp : inputParser input = (Except.ok n, [])) :
    roundStep m s input = (StepResult.again, ["Invalid number: " ++ toString n]) ∨
    roundStep m s input = (StepResult.again, ["Too small."]) ∨
    roundStep m s input = (StepResult.again, ["Too big."]) ∨
    roundStep m s input = (StepResult.win, ["You win!"]) := by
  by_cases hgt : n > m
  · exact Or.inl (by simp [roundStep, hp, hgt])
  · by_cases hlt : n < 1
    · exact Or.inl (by simp [roundStep, hp, hgt, hlt])
    · rcases Nat.lt_trichotomy n s with hc | hc | hc
      · exact Or.inr (Or.inl
          (by simp [roundStep, hp, hgt, hlt, Nat.compare_eq_lt.2 hc]))
      · exact Or.inr (Or.inr (Or.inr
          (by simp [roundStep, hp, hgt, hlt, Nat.compare_eq_eq.2 hc])))
      · exact Or.inr (Or.inr (Or.inl
          (by simp [roundStep, hp, hgt, hlt, Nat.compare_eq_gt.2 hc])))

/-- Exhaustive list of the possible results of one round-loop iteration. -/
lemma roundStep_cases (m s : Nat) (input : String) :
    roundStep m s input = (StepResult.quitRound, ["Goodbye!"]) ∨
    (∃ t, roundStep m s input = (StepResult.again, ["Invalid number: " ++ t])) ∨
    roundStep m s input = (StepResult.again, ["Too small."]) ∨
    roundStep m s input = (StepResult.again, ["Too big."]) ∨
    roundStep m s input = (StepResult.win, ["You win!"]) := by
  rcases inputParser_cases input with ⟨hq, _⟩ | ⟨n, _, hp⟩ | ⟨_, _, hp⟩
  · exact Or.inl (roundStep_of_quit hq)
  · rcases roundStep_ok_cases (m := m) (s := s) hp with h | h | h | h
    · exact Or.inr (Or.inl ⟨toString n, h⟩)
    · exact Or.inr (Or.inr (Or.inl h))
    · exact Or.inr (Or.inr (Or.inr (Or.inl h)))
    · exact Or.inr (Or.inr (Or.inr (Or.inr h)))
  · exact Or.inr (Or.inl ⟨rustTrim input, roundStep_of_invalid hp⟩)

lemma roundStep_quitRound_out {m s : Nat} {input : String} {o : List String}
    (h : roundStep m s input = (StepResult.quitRound, o)) : o = ["Goodbye!"] := by
  rcases roundStep_cases m s input with hc | ⟨t, hc⟩ | hc | hc | hc <;> rw [hc] at h
  · injection h with _ h2
    exact h2.symm
  all_goals
    injection h with h1 _
    exact StepResult.noConfusion h1

lemma roundStep_win_out {m s : Nat} {input : String} {o : List String}
    (h : roundStep m s input = (StepResult.win, o)) : o = ["You win!"] := by
  rcases roundStep_cases m s input with hc | ⟨t, hc⟩ | hc | hc | hc <;> rw [hc] at h
  · injection h with h1 _
    exact StepResult.noConfusion h1
  · injection h with h1 _
    exact StepResult.noConfusion h1
  · injection h with h1 _
    exact StepResult.noConfusion h1
  · injection h with h1 _
    exact StepResult.noConfusion h1
  · injection h with _ h2
    exact h2.symm

lemma count_goodbye_invalidMsg (t : String) :
    (["Invalid number: " ++ t] : List String).count "Goodbye!" = 0 := by
  rw [List.count_eq_zero]
  intro hmem
  rw [List.mem_singleton] at hmem
  exact invalidMsg_ne_goodbye t hmem.symm

lemma roundStep_again_count {m s : Nat} {input : String} {o : List String}
    (h : roundStep m s input = (StepResult.again, o)) : o.count "Goodbye!" = 0 := by
  rcases roundStep_cases m s input with hc | ⟨t, hc⟩ | hc | hc | hc <;> rw [hc] at h
  · injection h with h1 _
    exact StepResult.noConfusion h1
  · injection h with _ h2
    rw [← h2]
    exact count_goodbye_invalidMsg t
  · injection h with _ h2
    rw [← h2]
    decide
  · injection h with _ h2
    rw [← h2]
    decide
  · injection h with h1 _
    exact StepResult.noConfusion h1

/-- Whenever the round loop ends with `false` (the player quit), the lines it
printed contain "Goodbye!" exactly once. -/
lemma guessLoop_false_count (m s : Nat) :
    ∀ (inputs out rest : List String),
      guessLoop m s inputs = some (false, out, rest) →
      out.count "Goodbye!" = 1 := by
  intro inputs
  induction inputs with
  | nil =>
    intro out rest h
    simp [guessLoop] at h
  | cons line tl ih =>
    intro out rest h
    rcases hstep : roundStep m s line with ⟨r, o⟩
    cases r with
    | win =>
      simp only [guessLoop] at h
      rw [hstep] at h
      simp at h
    | quitRound =>
      simp only [guessLoop] at h
      rw [hstep] at h
      simp only [Option.some.injEq, Prod.mk.injEq] at h
      obtain ⟨-, h1, -⟩ := h
      rw [← h1, List.count_append, roundStep_quitRound_out hstep]
      decide
    | again =>
      simp only [guessLoop] at h
      rw [hstep] at h
      simp only [Option.map_eq_some'] at h
      obtain ⟨⟨b, o2, r2⟩, hg, heq⟩ := h
      injection heq with hb hrest
      injection hrest with hout hr
      simp only [] at hb hout hr
      rw [hb] at hg
      rw [← hout, List.count_append, List.count_append,
        roundStep_again_count hstep, ih o2 r2 hg]
      decide

lemma secretDraw_eq {maxValue r : Nat} (h1 : 1 ≤ maxValue) (h2 : maxValue ≤ 4294967294) :
    secretDraw maxValue r = some (1 + r % maxValue) := by
  unfold secretDraw genRange U32_MOD
  rw [Nat.mod_eq_of_lt (by omega)]
  rw [if_pos (by omega)]
  simp

lemma secretDraw_mem {maxValue r : Nat} (h1 : 1 ≤ maxValue) (h2 : maxValue ≤ 4294967294) :
    ∃ s, secretDraw maxValue r = some s ∧ 1 ≤ s ∧ s ≤ maxValue := by
  refine ⟨1 + r % maxValue, secretDraw_eq h1 h2, by omega, ?_⟩
  have := Nat.mod_lt r (show 0 < maxValue by omega)
  omega

/-! ## Claims -/

/-- C1 (amended): for every max with `1 ≤ max ≤ 2 ^ 32 - 2` and every raw
random value, the secret number drawn by `guess` lies in the inclusive
range `[1, max]`. (The claim's original range "every max ≥ 1" also admits
`max = 2 ^ 32 - 1`, where the draw panics; see the counterexample.) -/
theorem c1_secret_in_range (maxValue r : Nat)
    (h1 : 1 ≤ maxValue) (h2 : maxValue ≤ 4294967294) :
    ∃ s, secretDraw maxValue r = some s ∧ 1 ≤ s ∧ s ≤ maxValue :=
  secretDraw_mem h1 h2

/-- Witness for C1 at max = 10, raw random value 7. -/
theorem c1_secret_in_range_witness :
    ∃ s, secretDraw 10 7 = some s ∧ 1 ≤ s ∧ s ≤ 10 :=
  c1_secret_in_range 10 7 (by decide) (by decide)

/-- Counterexample to C1 as stated: `max = 4294967295 = 2 ^ 32 - 1`
satisfies `max ≥ 1`, yet the draw aborts (`none`) instead of producing a
secret number in `[1, max]`. -/
theorem c1_secret_in_range_counterexample :
    1 ≤ 4294967295 ∧
    ¬ ∃ s, secretDraw 4294967295 0 = some s ∧ 1 ≤ s ∧ s ≤ 4294967295 := by
  refine ⟨by omega, ?_⟩
  rintro ⟨s, hs, -, -⟩
  rw [(rfl : secretDraw 4294967295 0 = none)] at hs
  cases hs

/-- C2 (amended): for every input line whose trimmed text parses as a
non-negative whole number of value at most `u32::MAX = 2 ^ 32 - 1`,
`input_parser` returns that integer as the valid outcome and prints
nothing. (The claim's original "without an upper bound" fails: values
above `u32::MAX` make `parse::<u32>()` fail; see the counterexample.) -/
theorem c2_parse_ok (input : String) (n : Nat)
    (hne : stripPlus (rustTrim input).data ≠ [])
    (hd : (stripPlus (rustTrim input).data).all Char.isDigit = true)
    (hv : digitsToNat (stripPlus (rustTrim input).data) = n)
    (hb : n < 4294967296) :
    inputParser input = (Except.ok n, []) := by
  have hp : parseU32 (rustTrim input) = some n := by
    unfold parseU32
    rw [if_pos ⟨hne, hd⟩, hv, if_pos (show n < U32_MOD from hb)]
  unfold inputParser
  rw [hp]

/-- Witness for C2 at the input line " 42\n". -/
theorem c2_parse_ok_witness : inputParser " 42\n" = (Except.ok 42, []) :=
  c2_parse_ok " 42\n" 42 (by decide) (by decide) (by decide) (by decide)

/-- Counterexample to C2 as stated: the trimmed text "4294967296" parses
as a non-negative whole number (all digits), yet `input_parser` prints a
diagnostic and returns the invalid signal, because the value exceeds
`u32::MAX`. -/
theorem c2_parse_ok_counterexample :
    stripPlus (rustTrim "4294967296").data ≠ [] ∧
    (stripPlus (rustTrim "4294967296").data).all Char.isDigit = true ∧
    inputParser "4294967296" =
      (Except.error false, ["Invalid number: 4294967296"]) :=
  ⟨by decide, by decide, rfl⟩

/-- C3: for every input line whose trimmed text neither parses as a u32
nor equals "quit", `input_parser` prints exactly the one line
"Invalid number: " followed by the trimmed text and returns the invalid
signal; moreover (totality, "no exception or panic escapes") every input
is funneled into one of the three outcomes, with a diagnostic printed
only in the invalid case. -/
theorem c3_parse_invalid (input : String) :
    (parseU32 (rustTrim input) = none → rustTrim input ≠ "quit" →
      inputParser input =
        (Except.error false, ["Invalid number: " ++ rustTrim input])) ∧
    (inputParser input = (Except.error true, []) ∨
      (∃ n, inputParser input = (Except.ok n, [])) ∨
      inputParser input =
        (Except.error false, ["Invalid number: " ++ rustTrim input])) := by
  constructor
  · intro hp hq
    unfold inputParser
    rw [hp, if_neg hq]
  · rcases inputParser_cases input with ⟨_, h⟩ | ⟨n, _, h⟩ | ⟨_, _, h⟩
    · exact Or.inl h
    · exact Or.inr (Or.inl ⟨n, h⟩)
    · exact Or.inr (Or.inr h)

/-- Witness for C3 at the input line "abc". -/
theorem c3_parse_invalid_witness :
    inputParser "abc" =
      (Except.error false, ["Invalid number: " ++ rustTrim "abc"]) :=
  (c3_parse_invalid "abc").1 (by decide) (by decide)

/-- C4: for every input line whose trimmed text equals "quit" exactly,
`input_parser` returns the quit signal and prints no diagnostic; for any
other trimmed text (including other casings such as "Quit") the quit
signal is never produced. -/
theorem c4_quit_signal (input : String) :
    (rustTrim input = "quit" → inputParser input = (Except.error true, [])) ∧
    (rustTrim input ≠ "quit" → (inputParser input).1 ≠ Except.error true) := by
  constructor
  · exact inputParser_of_quit
  · intro hq h
    exact hq ((inputParser_quit_iff input).1 h)

/-- Witness for C4 at the input lines "quit\n" and "Quit". -/
theorem c4_quit_signal_witness :
    inputParser "quit\n" = (Except.error true, []) ∧
    (inputParser "Quit").1 ≠ Except.error true :=
  ⟨(c4_quit_signal "quit\n").1 (by decide), (c4_quit_signal "Quit").2 (by decide)⟩

/-- C5: for every max ≥ 1, every secret number, and every parsed guess
outside `[1, max]`, the round loop never reaches the win/loss comparison:
the iteration prints exactly "Invalid number: " followed by the value,
takes the re-loop branch, and the session re-prompts in the same round
state (same max, same secret). -/
theorem c5_out_of_range_rejected (maxValue s g : Nat) (input : String)
    (hm : 1 ≤ maxValue)
    (hp : inputParser input = (Except.ok g, []))
    (hg : g < 1 ∨ maxValue < g) :
    roundStep maxValue s input =
      (StepResult.again, ["Invalid number: " ++ toString g]) ∧
    ∀ (rand : Nat → Nat) (k : Nat) (rest : List String),
      runMain rand (SessionState.inRound k maxValue s) (input :: rest) =
        (runMain rand (SessionState.inRound k maxValue s) rest).map
          (fun o => guessPrompt ++ ["Invalid number: " ++ toString g] ++ o) := by
  have hstep : roundStep maxValue s input =
      (StepResult.again, ["Invalid number: " ++ toString g]) :=
    roundStep_of_ok_out_of_range hp hm hg
  refine ⟨hstep, ?_⟩
  intro rand k rest
  simp only [runMain]
  rw [hstep]

/-- Witness for C5: guess "11" with max = 10, secret = 5. -/
theorem c5_out_of_range_rejected_witness :
    roundStep 10 5 "11" =
      (StepResult.again, ["Invalid number: " ++ toString 11]) ∧
    runMain (fun _ => 0) (SessionState.inRound 1 10 5) ["11"] =
      (runMain (fun _ => 0) (SessionState.inRound 1 10 5) []).map
        (fun o => guessPrompt ++ ["Invalid number: " ++ toString 11] ++ o) := by
  have h := c5_out_of_range_rejected 10 5 11 "11" (by decide) rfl
    (Or.inr (by decide))
  exact ⟨h.1, h.2 (fun _ => 0) 1 []⟩

/-- C6: for every guess `g` in `[1, max]` and secret `s`, the round prints
"Too small." and re-loops when `g < s`, prints "Too big." and re-loops
when `g > s`, and prints "You win!" and returns `true` when `g = s`. -/
theorem c6_comparison_feedback (maxValue s g : Nat) (input : String)
    (hp : inputParser input = (Except.ok g, []))
    (h1 : 1 ≤ g) (h2 : g ≤ maxValue) :
    (g < s → roundStep maxValue s input = (StepResult.again, ["Too small."])) ∧
    (s < g → roundStep maxValue s input = (StepResult.again, ["Too big."])) ∧
    (g = s →
      roundStep maxValue s input = (StepResult.win, ["You win!"]) ∧
      ∀ rest, guessLoop maxValue s (input :: rest) =
        some (true, guessPrompt ++ ["You win!"], rest)) := by
  refine ⟨fun h => roundStep_of_ok_lt hp h1 h2 h,
    fun h => roundStep_of_ok_gt hp h1 h2 h,
    fun h => ⟨roundStep_of_ok_eq hp h1 h2 h, ?_⟩⟩
  intro rest
  simp only [guessLoop]
  rw [roundStep_of_ok_eq hp h1 h2 h]

/-- Witness for C6: guesses "3", "7" and "5" with max = 10, secret = 5. -/
theorem c6_comparison_feedback_witness :
    roundStep 10 5 "3" = (StepResult.again, ["Too small."]) ∧
    roundStep 10 5 "7" = (StepResult.again, ["Too big."]) ∧
    roundStep 10 5 "5" = (StepResult.win, ["You win!"]) ∧
    guessLoop 10 5 ["5"] = some (true, guessPrompt ++ ["You win!"], []) :=
  ⟨(c6_comparison_feedback 10 5 3 "3" rfl (by decide) (by decide)).1 (by decide),
   (c6_comparison_feedback 10 5 7 "7" rfl (by decide) (by decide)).2.1 (by decide),
   ((c6_comparison_feedback 10 5 5 "5" rfl (by decide) (by decide)).2.2 rfl).1,
   ((c6_comparison_feedback 10 5 5 "5" rfl (by decide) (by decide)).2.2 rfl).2 []⟩

/-- C7: whenever `input_parser` returns the quit signal, the process
prints the farewell exactly once and terminates. At the max-value prompt
the session output ends right after "Goodbye!" (no round is started);
during a round the loop takes the quit branch printing only "Goodbye!",
and the session terminates right there with no replay prompt; and every
round that ends with `false` has printed "Goodbye!" exactly once. -/
theorem c7_quit_terminates :
    (∀ (rand : Nat → Nat) (k : Nat) (line : String) (rest : List String),
      (inputParser line).1 = Except.error true →
      runMain rand (SessionState.atMax k) (line :: rest) =
        some (maxPrompt ++ ["Goodbye!"])) ∧
    (∀ (maxValue s : Nat) (input : String),
      (inputParser input).1 = Except.error true →
      roundStep maxValue s input = (StepResult.quitRound, ["Goodbye!"])) ∧
    (∀ (rand : Nat → Nat) (k maxValue s : Nat) (line : String)
        (rest : List String),
      (inputParser line).1 = Except.error true →
      runMain rand (SessionState.inRound k maxValue s) (line :: rest) =
        some (guessPrompt ++ ["Goodbye!"])) ∧
    (∀ (maxValue s : Nat) (inputs out rest : List String),
      guessLoop maxValue s inputs = some (false, out, rest) →
      out.count "Goodbye!" = 1) := by
  refine ⟨?_, ?_, ?_, ?_⟩
  · intro rand k line rest h
    have hq := (inputParser_quit_iff line).1 h
    simp only [runMain]
    rw [inputParser_of_quit hq]
    simp
  · intro maxValue s input h
    exact roundStep_of_quit ((inputParser_quit_iff input).1 h)
  · intro rand k maxValue s line rest h
    have hq := (inputParser_quit_iff line).1 h
    simp only [runMain]
    rw [roundStep_of_quit hq]
  · intro maxValue s inputs out rest h
    exact guessLoop_false_count maxValue s inputs out rest h

/-- Witness for C7: quitting at the max prompt and during a round with
max = 10, secret = 5. -/
theorem c7_quit_terminates_witness :
    runMain (fun _ => 0) (SessionState.atMax 0) ["quit"] =
      some (maxPrompt ++ ["Goodbye!"]) ∧
    roundStep 10 5 "quit" = (StepResult.quitRound, ["Goodbye!"]) ∧
    runMain (fun _ => 0) (SessionState.inRound 1 10 5) ["quit"] =
      some (guessPrompt ++ ["Goodbye!"]) ∧
    (guessPrompt ++ ["Goodbye!"]).count "Goodbye!" = 1 :=
  ⟨c7_quit_terminates.1 (fun _ => 0) 0 "quit" [] rfl,
   c7_quit_terminates.2.1 10 5 "quit" rfl,
   c7_quit_terminates.2.2.1 (fun _ => 0) 1 10 5 "quit" [] rfl,
   c7_quit_terminates.2.2.2 10 5 ["quit"] (guessPrompt ++ ["Goodbye!"]) [] rfl⟩

/-- C8: when the max-value input parses to an integer below 1 (that is,
0), the session prints "Value must be greater than zero." and loops back
to the max-value prompt without starting a round. -/
theorem c8_zero_max_rejected (rand : Nat → Nat) (k : Nat) (line : String)
    (rest : List String) (num : Nat)
    (hp : inputParser line = (Except.ok num, [])) (h0 : num < 1) :
    runMain rand (SessionState.atMax k) (line :: rest) =
      (runMain rand (SessionState.atMax k) rest).map
        (fun o => maxPrompt ++ ["Value must be greater than zero."] ++ o) := by
  simp only [runMain]
  rw [hp]
  simp [h0]

/-- Witness for C8: max-value input "0". -/
theorem c8_zero_max_rejected_witness :
    runMain (fun _ => 0) (SessionState.atMax 0) ["0", "quit"] =
      (runMain (fun _ => 0) (SessionState.atMax 0) ["quit"]).map
        (fun o => maxPrompt ++ ["Value must be greater than zero."] ++ o) :=
  c8_zero_max_rejected (fun _ => 0) 0 "0" ["quit"] 0 rfl (by decide)

/-- C9: after a won round the session reaches the replay prompt; a
replay answer whose trimmed text is not exactly "y" prints "At least
you're leaving a winner." and ends the process, while exactly "y"
restarts the session loop at a fresh max-value prompt. -/
theorem c9_replay_prompt (rand : Nat → Nat) (k : Nat) (line : String)
    (rest : List String) :
    (∀ (maxValue s : Nat) (input : String) (rest2 out : List String),
      roundStep maxValue s input = (StepResult.win, out) →
      runMain rand (SessionState.inRound k maxValue s) (input :: rest2) =
        (runMain rand (SessionState.atReplay k) rest2).map
          (fun o => guessPrompt ++ ["You win!"] ++ o)) ∧
    (rustTrim line ≠ "y" →
      runMain rand (SessionState.atReplay k) (line :: rest) =
        some (replayPrompt ++ ["At least you're leaving a winner."])) ∧
    (rustTrim line = "y" →
      runMain rand (SessionState.atReplay k) (line :: rest) =
        (runMain rand (SessionState.atMax k) rest).map
          (fun o => replayPrompt ++ o)) := by
  refine ⟨?_, ?_, ?_⟩
  · intro maxValue s input rest2 out hwin
    have ho := roundStep_win_out hwin
    rw [ho] at hwin
    simp only [runMain]
    rw [hwin]
  · intro hy
    simp only [runMain]
    rw [if_neg hy]
  · intro hy
    simp only [runMain]
    rw [if_pos hy]

/-- Witness for C9: win with "5" (max = 10, secret = 5), then replay
answers "n" and "y". -/
theorem c9_replay_prompt_witness :
    runMain (fun _ => 0) (SessionState.inRound 1 10 5) ["5", "n"] =
      (runMain (fun _ => 0) (SessionState.atReplay 1) ["n"]).map
        (fun o => guessPrompt ++ ["You win!"] ++ o) ∧
    runMain (fun _ => 0) (SessionState.atReplay 1) ["n"] =
      some (replayPrompt ++ ["At least you're leaving a winner."]) ∧
    runMain (fun _ => 0) (SessionState.atReplay 1) ["y", "quit"] =
      (runMain (fun _ => 0) (SessionState.atMax 1) ["quit"]).map
        (fun o => replayPrompt ++ o) :=
  ⟨(c9_replay_prompt (fun _ => 0) 1 "n" []).1 10 5 "5" ["n"] ["You win!"] rfl,
   (c9_replay_prompt (fun _ => 0) 1 "n" []).2.1 (by decide),
   (c9_replay_prompt (fun _ => 0) 1 "y" ["quit"]).2.2 (by decide)⟩

/-- C10: the secret-number draw computes `max_value + 1` in u32
arithmetic: for `max = 2 ^ 32 - 1` the addition wraps to 0 and the draw
aborts for every random value, while for every `1 ≤ max ≤ 2 ^ 32 - 2` the
draw is well-defined and yields a secret in `[1, max]`. -/
theorem c10_draw_overflow :
    (∀ r, secretDraw 4294967295 r = none) ∧
    (∀ maxValue r, 1 ≤ maxValue → maxValue ≤ 4294967294 →
      ∃ s, secretDraw maxValue r = some s ∧ 1 ≤ s ∧ s ≤ maxValue) := by
  constructor
  · intro r
    unfold secretDraw genRange U32_MOD
    norm_num
  · intro maxValue r h1 h2
    exact secretDraw_mem h1 h2

/-- Witness for C10: the draw at max = 2 ^ 32 - 1 and at max = 5. -/
theorem c10_draw_overflow_witness :
    secretDraw 4294967295 0 = none ∧
    ∃ s, secretDraw 5 3 = some s ∧ 1 ≤ s ∧ s ≤ 5 :=
  ⟨c10_draw_overflow.1 0, c10_draw_overflow.2 5 3 (by decide) (by decide)⟩

end GuessingGame
